import Mathlib

/-!
Verification of the RIPIS interview-orchestration core.

Strings of the Python source are embedded as `List Char`.  The helper
functions below model the exact Python string primitives used by the code
under verification: `str.lower`, `str.upper`, `str.strip`, `str.split`,
`str.replace`, and the substring test `in`.  All inputs exercised by the
program are ASCII, where `Char.toLower`/`Char.toUpper` agree with Python.
-/

/-- Abbreviation for embedded Python strings. -/
abbrev Str := List Char

/-- Characters treated as whitespace by Python's `str.strip()` / `str.split()`
(ASCII fragment: space, tab, newline, carriage return, vertical tab, form feed). -/
def isPySpace (c : Char) : Bool :=
  c = ' ' || c = '\t' || c = '\n' || c = '\x0d' || c = (Char.ofNat 11) || c = (Char.ofNat 12)

/-- Python `str.lower()` (ASCII). -/
def pyLower (s : Str) : Str := s.map Char.toLower

/-- Python `str.upper()` (ASCII). -/
def pyUpper (s : Str) : Str := s.map Char.toUpper

/-- Python `str.strip()`: drop leading and trailing whitespace. -/
def pyStrip (s : Str) : Str :=
  ((s.dropWhile isPySpace).reverse.dropWhile isPySpace).reverse

/-- Python `str.strip(chars)`: drop leading and trailing characters from `cs`. -/
def pyStripChars (cs : Str) (s : Str) : Str :=
  ((s.dropWhile (cs.contains ·)).reverse.dropWhile (cs.contains ·)).reverse

/-- Helper for `pySplit`: `acc` holds the reversed current word. -/
def pySplitAux : Str → Str → List Str
  | [], acc => if acc = [] then [] else [acc.reverse]
  | c :: rest, acc =>
    if isPySpace c then
      if acc = [] then pySplitAux rest [] else acc.reverse :: pySplitAux rest []
    else pySplitAux rest (c :: acc)

/-- Python `str.split()` with no argument: split on whitespace runs,
discarding empty pieces. -/
def pySplit (s : Str) : List Str := pySplitAux s []

/-- Python substring containment `needle in haystack`. -/
def containsSub (needle : Str) : Str → Bool
  | [] => needle.isPrefixOf ([] : Str)
  | c :: rest => needle.isPrefixOf (c :: rest) || containsSub needle rest

/-- Fuel-based core of `pyReplace`; the fuel is always instantiated with the
length of the scanned string, which every step shrinks by at least one. -/
def pyReplaceFuel (olds news : Str) : Nat → Str → Str
  | 0, s => s
  | _ + 1, [] => []
  | fuel + 1, c :: rest =>
    if olds ≠ [] ∧ olds.isPrefixOf (c :: rest) then
      news ++ pyReplaceFuel olds news fuel ((c :: rest).drop olds.length)
    else
      c :: pyReplaceFuel olds news fuel rest

/-- Python `s.replace(old, new)` for a non-empty `old`: replace each
non-overlapping occurrence left to right, continuing after the replacement. -/
def pyReplace (olds news s : Str) : Str := pyReplaceFuel olds news s.length s

/-!
Garbage classifier: embedding of `InterviewStateMachine._is_garbage_input`
(src/core/interview_state.py, lines 418-434).  The Python guard
`if not text or len(text) < 3` is equivalent to `len(text) < 3` since the
empty string has length 0.  The word-ratio test `short_words / len(words) > 0.6`
is a Python float comparison; it is embedded as the exact rational comparison
`10 * short_words > 6 * len(words)`, with which it agrees for every word count
the program can encounter.
-/

/-- Embedding of `_is_garbage_input`. -/
def isGarbageInput (text : Str) : Bool :=
  if text.length < 3 then true
  else if (pyStrip (pyLower text)) ∈
      ["the".data, "a".data, "an".data, "uh".data, "um".data] then true
  else
    let words := pySplit text
    if words.length > 3 then
      if 10 * (words.countP (fun w => w.length ≤ 2)) > 6 * words.length then true
      else false
    else false

/-!
Hint and completion classifiers: embeddings of `_is_asking_for_hint` and
`_seems_finished` (src/core/interview_state.py, lines 458-466).  Both test
whether any fixed keyword is a substring of the lower-cased utterance.
-/

/-- Keyword list of `_is_asking_for_hint`. -/
def hintKeywords : List Str :=
  ["hint".data, "help".data, "stuck".data, "don't know".data,
   "not sure".data, "confused".data, "clue".data]

/-- Embedding of `_is_asking_for_hint`. -/
def isAskingForHint (userInput : Str) : Bool :=
  hintKeywords.any (fun kw => containsSub kw (pyLower userInput))

/-- Keyword list of `_seems_finished`. -/
def doneKeywords : List Str :=
  ["done".data, "finished".data, "complete".data, "that's it".data,
   "that's my solution".data, "works".data, "should work".data]

/-- Embedding of `_seems_finished`. -/
def seemsFinished (userInput : Str) : Bool :=
  doneKeywords.any (fun kw => containsSub kw (pyLower userInput))

/-!
Embedding of `_parse_question_response` (src/core/interview_state.py,
lines 314-352).  The three Python regular-expression searches are embedded
with their exact backtracking semantics:

* each pattern is `LABEL:\s*(.+?)(?=LOOK)` compiled with `re.IGNORECASE` and
  `re.DOTALL`, searched at the leftmost feasible start position;
* at a match position the greedy `\s*` prefers the longest whitespace run
  and backtracks downward, while the lazy `(.+?)` grows from one character
  upward until the lookahead holds;
* `$` (without `re.MULTILINE`) holds at the end of the input or immediately
  before a terminal newline.
-/

/-- Case-insensitive prefix test, modelling a literal matched under
`re.IGNORECASE` (ASCII). -/
def ciPrefixOf : Str → Str → Bool
  | [], _ => true
  | _ :: _, [] => false
  | p :: ps, c :: cs => (p.toLower = c.toLower) && ciPrefixOf ps cs

/-- Case-insensitive substring containment (ASCII). -/
def ciContainsSub (needle : Str) : Str → Bool
  | [] => ciPrefixOf needle ([] : Str)
  | c :: rest => ciPrefixOf needle (c :: rest) || ciContainsSub needle rest

/-- Whether the position whose remaining text is `rest` satisfies `$`
without `re.MULTILINE`: at the end, or just before a terminal newline. -/
def atDollar (rest : Str) : Bool := rest = [] || rest = ['\n']

/-- Capture attempt for `(.+?)(?=LOOK)` at suffix `s` with `m` characters
already consumed by `\s*`: the shortest non-empty capture whose following
position satisfies `look`. -/
def capAt (look : Str → Bool) (s : Str) (m : Nat) : Option Str :=
  (List.range (s.length - m)).findSome? fun l0 =>
    let l := l0 + 1
    if look (s.drop (m + l)) then some ((s.drop m).take l) else none

/-- Capture for `\s*(.+?)(?=LOOK)` at suffix `s`: the greedy `\s*` tries the
longest whitespace prefix first and backtracks downward. -/
def captureLazy (look : Str → Bool) (s : Str) : Option Str :=
  let maxm := (s.takeWhile isPySpace).length
  (List.range (maxm + 1)).findSome? fun k => capAt look s (maxm - k)

/-- Leftmost-first search for `LABEL\s*(.+?)(?=LOOK)`: at each start
position, match the literal label case-insensitively, then capture; on
failure move one position right. -/
def searchLabel (label : Str) (look : Str → Bool) : Str → Option Str
  | [] => none
  | c :: rest =>
    match (if ciPrefixOf label (c :: rest) then
             captureLazy look ((c :: rest).drop label.length)
           else none) with
    | some cap => some cap
    | none => searchLabel label look rest

/-- Lookahead `(?=---|$)` of the QUESTION_TITLE pattern. -/
def lookTitle (rest : Str) : Bool := "---".data.isPrefixOf rest || atDollar rest

/-- Lookahead `(?=VERBAL:|EXPLANATION:|$)` of the QUESTION_TEXT pattern
(case-insensitive literals under `re.IGNORECASE`). -/
def lookText (rest : Str) : Bool :=
  ciPrefixOf "VERBAL:".data rest || ciPrefixOf "EXPLANATION:".data rest || atDollar rest

/-- Search for `(?:VERBAL|EXPLANATION):\s*(.+?)$`: at each position the
alternation tries `VERBAL:` first, then `EXPLANATION:`. -/
def searchExpLabel : Str → Option Str
  | [] => none
  | c :: rest =>
    match (if ciPrefixOf "VERBAL:".data (c :: rest) then
             captureLazy atDollar ((c :: rest).drop 7)
           else none) with
    | some cap => some cap
    | none =>
      match (if ciPrefixOf "EXPLANATION:".data (c :: rest) then
               captureLazy atDollar ((c :: rest).drop 12)
             else none) with
      | some cap => some cap
      | none => searchExpLabel rest

/-- Embedding of `_parse_question_response`; the argument is `none` for a
Python `None` (the guard `if not response` accepts both `None` and the empty
string).  Returns (question_title, question_text, explanation). -/
def parseQuestionResponse (response : Option Str) : Str × Str × Str :=
  match response with
  | none => ("Interview Question".data, "Please solve the problem.".data,
             "Let me give you a problem to work on.".data)
  | some r =>
    if r = [] then
      ("Interview Question".data, "Please solve the problem.".data,
       "Let me give you a problem to work on.".data)
    else
      let questionTitle :=
        match searchLabel "QUESTION_TITLE:".data lookTitle r with
        | some cap => pyStripChars ['\''] (pyStripChars ['"'] (pyStrip cap))
        | none => "Interview Question".data
      let questionText :=
        match searchLabel "QUESTION_TEXT:".data lookText r with
        | some cap => pyStrip cap
        | none => []
      let explanation :=
        match searchExpLabel r with
        | some cap => pyStrip cap
        | none => []
      let (questionText, explanation) :=
        if questionText = [] ∧ explanation = [] then (r, r)
        else (questionText, explanation)
      (pyStrip (pyReplace "---".data [] questionTitle),
       pyStrip (pyReplace "---".data [] questionText),
       pyStrip (pyReplace "---".data [] explanation))

/-!
Data model: embedding of `InterviewContext`, `InterviewState` and the
machine state of `InterviewStateMachine` (src/core/interview_state.py).

Timestamps (`datetime.now()`) are modelled by a logical clock carried in the
machine: every call to `datetime.now()` reads the clock and advances it, so
the clock is non-decreasing across a run, which is the monotonicity the wall
clock provides.  Generative calls (`self.ai_engine.generate_response`) are
modelled by an oracle `gen : Prompt → Str` together with a log of the
prompts issued; `Prompt` packages each template of prompt_templates.py with
its `.format` arguments.  UI callbacks (`on_state_change`,
`on_ai_response`, `on_editor_write`) are external sinks and are not
modelled; `stateLog` records every assignment to `self.state` in order.
-/

/-- Embedding of a mistake record `{"question", "wrong_answer", "correction"}`. -/
structure Mistake where
  question : Str
  wrong_answer : Str
  correction : Str
deriving DecidableEq, Repr

/-- Embedding of a transcript entry `{"speaker", "text", "timestamp"}`. -/
structure TranscriptEntry where
  speaker : Str
  text : Str
  timestamp : Nat
deriving DecidableEq, Repr

/-- Embedding of the `InterviewContext` dataclass with its field defaults. -/
structure Ctx where
  interview_type : Str := []
  difficulty : Str := "medium".data
  current_question : Str := []
  current_code : Str := []
  hints_given : Nat := 0
  questions_asked : List Str := []
  start_time : Option Nat := none
  end_time : Option Nat := none
  transcript : List TranscriptEntry := []
  follow_up_attempts : Nat := 0
  max_retries : Nat := 5
  last_question_type : Str := []
  mistakes : List Mistake := []
deriving DecidableEq, Repr

/-- A fresh `InterviewContext()`. -/
def freshContext : Ctx := {}

/-- Embedding of the `InterviewState` enum. -/
inductive IState where
  | IDLE | GREETING | TOPIC_SELECTION | QUESTION_PRESENTING | CANDIDATE_SOLVING
  | GIVING_HINT | FOLLOW_UP | CLOSING | ENDED
deriving DecidableEq, Repr

/-- Prompts sent to the generative collaborator: each constructor is one
template of prompt_templates.py (or an inline prompt of the source) applied
to its `.format` arguments. -/
inductive Prompt where
  | greeting
  | question (interviewType difficulty : Str)
  | feedback (question currentCode userSpeech : Str) (hintsGiven : Nat)
  | hint (question currentCode : Str) (hintsGiven hintLevel : Nat)
  | followUp (question currentCode : Str)
  | followUpFeedback (question currentCode userInput : Str)
  | closing (questionsCovered mistakesSummary : Str)
  | contextual (userInput : Str)
deriving DecidableEq, Repr

/-- State of the `InterviewStateMachine` object, with the logical clock and
the ghost logs of state assignments and generative calls. -/
structure Machine where
  state : IState
  ctx : Ctx
  clock : Nat
  stateLog : List IState := []
  genLog : List Prompt := []
deriving DecidableEq, Repr

/-- Response oracle of the generative collaborator. -/
abbrev Gen := Prompt → Str

/-- An assignment `self.state = s` (recorded in the ghost state log). -/
def setState (m : Machine) (s : IState) : Machine :=
  { m with state := s, stateLog := m.stateLog ++ [s] }

/-- Embedding of `_add_to_transcript`: append a timestamped entry. -/
def addToTranscript (m : Machine) (speaker text : Str) : Machine :=
  { m with
    ctx := { m.ctx with transcript := m.ctx.transcript ++ [⟨speaker, text, m.clock⟩] },
    clock := m.clock + 1 }

/-- A call `self.ai_engine.generate_response(prompt)`: log the prompt, obtain
the oracle's response. -/
def callGen (gen : Gen) (m : Machine) (p : Prompt) : Machine × Str :=
  ({ m with genLog := m.genLog ++ [p] }, gen p)

/-- Python `", ".join(...)`. -/
def joinSep (sep : Str) : List Str → Str
  | [] => []
  | [x] => x
  | x :: y :: rest => x ++ sep ++ joinSep sep (y :: rest)

/-- Literal fallback explanation of `_present_question`. -/
def defaultPresentExplanation : Str :=
  ("Alright, I've written the question in the editor. Take a look at the problem "
    ++ "and walk me through your approach before you start coding.").data

/-- Embedding of `_present_question` (lines 270-312); the editor write
(`on_editor_write`) is an external sink. -/
def presentQuestion (gen : Gen) (m : Machine) : Machine × Str :=
  let m := setState m .QUESTION_PRESENTING
  let (m, response) := callGen gen m (.question m.ctx.interview_type m.ctx.difficulty)
  let parsed := parseQuestionResponse (some response)
  let questionTitle := parsed.1
  let questionText := parsed.2.1
  let explanation := parsed.2.2
  let m := { m with ctx := { m.ctx with
    current_question := questionText,
    questions_asked := m.ctx.questions_asked ++ [questionTitle],
    hints_given := 0 } }
  let explanation := if explanation = [] then defaultPresentExplanation else explanation
  let m := addToTranscript m "AI".data explanation
  let m := setState m .CANDIDATE_SOLVING
  (m, explanation)

/-- Embedding of `_give_hint` (lines 468-487). -/
def giveHint (gen : Gen) (m : Machine) : Machine × Str :=
  let m := setState m .GIVING_HINT
  let m := { m with ctx := { m.ctx with hints_given := m.ctx.hints_given + 1 } }
  let hintLevel := min m.ctx.hints_given 3
  let (m, response) := callGen gen m
    (.hint m.ctx.current_question m.ctx.current_code (m.ctx.hints_given - 1) hintLevel)
  let m := addToTranscript m "AI".data response
  let m := setState m .CANDIDATE_SOLVING
  (m, response)

/-- Embedding of `_ask_follow_up` (lines 494-506). -/
def askFollowUp (gen : Gen) (m : Machine) : Machine × Str :=
  let m := setState m .FOLLOW_UP
  let (m, response) := callGen gen m (.followUp m.ctx.current_question m.ctx.current_code)
  let m := addToTranscript m "AI".data response
  (m, response)

/-- Numbered lines of the mistakes summary built by `end_interview`. -/
def mistakesLines (i : Nat) : List Mistake → Str
  | [] => []
  | mk :: rest =>
    (Nat.repr i).data ++ ". They said: \"".data ++ mk.wrong_answer.take 50
      ++ "...\"\n".data ++ "   Correction: ".data ++ mk.correction.take 100
      ++ "\n".data ++ mistakesLines (i + 1) rest

/-- The mistakes summary of `end_interview` (lines 541-549). -/
def buildMistakesSummary (ms : List Mistake) : Str :=
  if ms ≠ [] then "MISTAKES MADE DURING INTERVIEW:\n".data ++ mistakesLines 1 ms
  else "No major mistakes recorded during this interview.".data

/-- Embedding of `end_interview` (lines 533-561). -/
def endInterview (gen : Gen) (m : Machine) : Machine × Str :=
  let m := setState m .CLOSING
  let m := { m with ctx := { m.ctx with end_time := some m.clock }, clock := m.clock + 1 }
  let mistakesSummary := buildMistakesSummary m.ctx.mistakes
  let (m, response) := callGen gen m
    (.closing (joinSep ", ".data m.ctx.questions_asked) mistakesSummary)
  let m := addToTranscript m "AI".data response
  let m := setState m .ENDED
  (m, response)

/-- Embedding of `_move_on_or_conclude` (lines 436-456). -/
def moveOnOrConclude (gen : Gen) (m : Machine) : Machine × Str :=
  let feedback : Str :=
    if m.ctx.mistakes ≠ [] then
      let recentMistakes := m.ctx.mistakes.filter
        (fun mk => containsSub (m.ctx.current_question.take 50) mk.question)
      if recentMistakes ≠ [] then
        "Before we move on, let me give you some feedback. ".data
          ++ (recentMistakes.drop (recentMistakes.length - 2)).foldl
              (fun acc mk => acc ++ mk.correction ++ " ".data) []
          ++ "\n\n".data
      else []
    else []
  if m.ctx.questions_asked.length < 2 then
    let (m, nextQuestion) := presentQuestion gen m
    (m, feedback ++ "Let's move on to the next problem. ".data ++ nextQuestion)
  else
    let (m, closing) := endInterview gen m
    (m, feedback ++ closing)

/-- The display cleanup loop of `_handle_solving_response` (lines 411-413):
`display_response.replace(tag, "").strip()` over the six exact-case tags. -/
def cleanupTags (response : Str) : Str :=
  ["[CORRECT]".data, "[WRONG]".data, "[UNCLEAR]".data,
   "[correct]".data, "[wrong]".data, "[unclear]".data].foldl
    (fun acc tag => pyStrip (pyReplace tag [] acc)) response

/-- Embedding of `_handle_solving_response` (lines 354-416). -/
def handleSolvingResponse (gen : Gen) (m : Machine) (userInput : Str) : Machine × Str :=
  if isGarbageInput userInput then
    (m, "I didn't catch that. Could you repeat?".data)
  else if isAskingForHint userInput then
    giveHint gen { m with ctx := { m.ctx with follow_up_attempts := 0 } }
  else if seemsFinished userInput then
    askFollowUp gen { m with ctx := { m.ctx with follow_up_attempts := 0 } }
  else
    let m := { m with ctx := { m.ctx with
      follow_up_attempts := m.ctx.follow_up_attempts + 1 } }
    if m.ctx.follow_up_attempts ≥ m.ctx.max_retries then
      moveOnOrConclude gen { m with ctx := { m.ctx with follow_up_attempts := 0 } }
    else
      let (m, response) := callGen gen m
        (.feedback m.ctx.current_question m.ctx.current_code userInput m.ctx.hints_given)
      let response := if response = [] then "[UNCLEAR] Okay, continue.".data else response
      let m :=
        if containsSub "[WRONG]".data (pyUpper response) then
          { m with ctx := { m.ctx with mistakes := m.ctx.mistakes ++
            [⟨m.ctx.current_question.take 100, userInput,
              pyStrip (pyReplace "[wrong]".data [] (pyReplace "[WRONG]".data [] response))⟩] } }
        else m
      let displayResponse := cleanupTags response
      let m := addToTranscript m "AI".data displayResponse
      (m, displayResponse)

/-- Embedding of `_handle_follow_up_response` (lines 508-531). -/
def handleFollowUpResponse (gen : Gen) (m : Machine) (userInput : Str) : Machine × Str :=
  let (m, response) := callGen gen m
    (.followUpFeedback m.ctx.current_question m.ctx.current_code userInput)
  let m := addToTranscript m "AI".data response
  if m.ctx.questions_asked.length ≥ 2 then endInterview gen m
  else (m, response)

/-- Embedding of `_handle_post_hint` (lines 489-492). -/
def handlePostHint (gen : Gen) (m : Machine) (userInput : Str) : Machine × Str :=
  handleSolvingResponse gen (setState m .CANDIDATE_SOLVING) userInput

/-- The interview-type keyword detection of `_handle_greeting_response`
(lines 247-258). -/
def detectInterviewType (userInput : Str) : Str :=
  let userLower := pyLower userInput
  if containsSub "dsa".data userLower || containsSub "data structure".data userLower
      || containsSub "algorithm".data userLower || containsSub "coding".data userLower then
    "DSA".data
  else if containsSub "system".data userLower || containsSub "design".data userLower then
    "System Design".data
  else if containsSub "dbms".data userLower || containsSub "database".data userLower
      || containsSub "sql".data userLower then
    "DBMS".data
  else if containsSub "os".data userLower || containsSub "operating".data userLower then
    "Operating Systems".data
  else "DSA".data

/-- Embedding of `_handle_greeting_response` (lines 243-264). -/
def handleGreetingResponse (gen : Gen) (m : Machine) (userInput : Str) : Machine × Str :=
  let m := { m with ctx := { m.ctx with interview_type := detectInterviewType userInput } }
  presentQuestion gen m

/-- Embedding of `_handle_topic_selection` (lines 266-268). -/
def handleTopicSelection (gen : Gen) (m : Machine) : Machine × Str :=
  presentQuestion gen m

/-- Embedding of `_generate_contextual_response` (lines 563-567). -/
def generateContextualResponse (gen : Gen) (m : Machine) (userInput : Str) : Machine × Str :=
  let (m, response) := callGen gen m (.contextual userInput)
  let m := addToTranscript m "AI".data response
  (m, response)

/-- Embedding of `process_user_input` (lines 223-241). -/
def processUserInput (gen : Gen) (m : Machine) (userInput currentCode : Str) : Machine × Str :=
  let m := addToTranscript m "User".data userInput
  let m := { m with ctx := { m.ctx with current_code := currentCode } }
  match m.state with
  | .GREETING => handleGreetingResponse gen m userInput
  | .TOPIC_SELECTION => handleTopicSelection gen m
  | .CANDIDATE_SOLVING => handleSolvingResponse gen m userInput
  | .FOLLOW_UP => handleFollowUpResponse gen m userInput
  | .GIVING_HINT => handlePostHint gen m userInput
  | _ => generateContextualResponse gen m userInput

/-- Embedding of `start_interview` (lines 205-221); the collaborator's
conversation-history reset lives in the engine model below. -/
def startInterview (gen : Gen) (m : Machine) : Machine × Str :=
  let m := setState m .GREETING
  let m := { m with ctx := { freshContext with start_time := some m.clock },
                    clock := m.clock + 1 }
  let (m, response) := callGen gen m .greeting
  let m := addToTranscript m "AI".data response
  (m, response)

/-- Embedding of `request_hint` (lines 587-591). -/
def requestHint (gen : Gen) (m : Machine) : Machine × Str :=
  if m.state = .CANDIDATE_SOLVING then giveHint gen m
  else (m, "Hints are available while solving a problem.".data)

/-- The duration field of `get_session_summary` (line 583): the value of
`str(self.context.end_time - self.context.start_time) if self.context.end_time
else "In progress"`; `typeError` marks the `TypeError` Python raises when
`end_time` is set but `start_time` is `None`. -/
inductive DurationField where
  | inProgress
  | dur (d : Int)
  | typeError
deriving DecidableEq, Repr

/-- Duration reported by `get_session_summary`. -/
def sessionDuration (c : Ctx) : DurationField :=
  match c.end_time with
  | none => .inProgress
  | some e =>
    match c.start_time with
    | some s => .dur ((e : Int) - (s : Int))
    | none => .typeError

/-!
Embedding of `AIEngine.generate_response` and `AIEngine._clean_response`
(src/core/ai_engine.py, lines 49-120).  The HTTP call is modelled by its
outcome: `requests.exceptions.Timeout` has its own handler; a connection
failure and every other exception fall into the generic `except Exception`
handler; a reply carries a status code and a message content.
-/

/-- Conversation roles of the messages stored in `conversation_history`. -/
inductive Role where
  | system | user | assistant
deriving DecidableEq, Repr

/-- State of the `AIEngine` object (the conversation history). -/
structure Engine where
  history : List (Role × Str) := []
deriving DecidableEq, Repr

/-- Outcome of the `requests.post` call inside `generate_response`. -/
inductive HttpOutcome where
  | timeout
  | connectionFailure
  | otherFailure
  | reply (status : Nat) (content : Str)
deriving DecidableEq, Repr

/-- First occurrence split: `splitFirst needle s = some (pre, post)` with
`s = pre ++ needle ++ post` at the leftmost occurrence of `needle`. -/
def splitFirst (needle : Str) : Str → Option (Str × Str)
  | [] => if needle.isPrefixOf ([] : Str) then some ([], []) else none
  | c :: rest =>
    if needle.isPrefixOf (c :: rest) then some ([], (c :: rest).drop needle.length)
    else (splitFirst needle rest).map (fun pq => (c :: pq.1, pq.2))

/-- Fuel-based removal of `<think>...</think>` blocks, modelling
`re.sub(r'<think>.*?</think>', '', response, flags=re.DOTALL)`: the lazy
body pairs each `<think>` with the nearest following `</think>`. -/
def removeThinkFuel : Nat → Str → Str
  | 0, s => s
  | fuel + 1, s =>
    match splitFirst "<think>".data s with
    | none => s
    | some (pre, post) =>
      match splitFirst "</think>".data post with
      | none => s
      | some pq => pre ++ removeThinkFuel fuel pq.2

/-- Removal of `<think>...</think>` blocks (fuel is the input length, which
every removal step strictly shrinks). -/
def removeThink (s : Str) : Str := removeThinkFuel s.length s

/-- Fuel-based scan to the text after the last separator occurrence,
modelling `response.split('</think>')[-1]`. -/
def afterLastSepFuel (needle : Str) : Nat → Str → Str
  | 0, s => s
  | fuel + 1, s =>
    match splitFirst needle s with
    | none => s
    | some pq => afterLastSepFuel needle fuel pq.2

/-- Text after the last occurrence of `needle` in Python's sequential
left-to-right splitting. -/
def afterLastSep (needle s : Str) : Str := afterLastSepFuel needle s.length s

/-- Embedding of `AIEngine._clean_response` (lines 98-120). -/
def cleanResponse (response : Str) : Str :=
  if response = [] then []
  else
    let cleaned := removeThink response
    let cleaned :=
      if containsSub "</think>".data response then afterLastSep "</think>".data response
      else cleaned
    pyStrip cleaned

/-- Embedding of `AIEngine.generate_response` (lines 49-96), as a total
function from the HTTP outcome. -/
def generateResponse (eng : Engine) (prompt : Str) (outcome : HttpOutcome) :
    Engine × Str :=
  match outcome with
  | .timeout => (eng, "I need a moment to think about that...".data)
  | .connectionFailure =>
    (eng, "I apologize for the technical issue. Please continue.".data)
  | .otherFailure =>
    (eng, "I apologize for the technical issue. Please continue.".data)
  | .reply status content =>
    if status = 200 then
      let assistantMessage := cleanResponse content
      let eng := { eng with history :=
        eng.history ++ [(.user, prompt), (.assistant, assistantMessage)] }
      (eng, if assistantMessage = [] then "I'm here to help! Please go ahead.".data
            else assistantMessage)
    else
      (eng, "I apologize, I'm having some trouble. Let me try again.".data)

/-!
Embedding of the `InterviewWorker` task queue (src/ui/main_window.py,
lines 19-59) as a labelled transition system.  `queue_action` appends a
task dictionary to `task_queue` from any producer thread; the consumer
loop in `run`, when the queue is non-empty and `is_busy` is false, pops
the head, sets `is_busy`, processes the task, clears `is_busy` and emits
`task_complete`.  `enqueued`, `started` and `completed` are ghost logs
recording those events in order; `current` is the task being processed
(the busy window between pop and completion).
-/

/-- Embedding of the task dictionary built by `queue_action`. -/
structure WTask where
  action : Str
  user_input : Str
  code : Str
deriving DecidableEq, Repr

/-- Worker state: the shared queue, the busy flag, the in-flight task and
the ghost event logs. -/
structure WorkerState where
  task_queue : List WTask
  is_busy : Bool
  current : Option WTask
  enqueued : List WTask
  started : List WTask
  completed : List WTask
deriving DecidableEq, Repr

/-- Worker state at thread start. -/
def workerInit : WorkerState := ⟨[], false, none, [], [], []⟩

/-- Transitions of the worker: a producer enqueue (`queue_action`), the
consumer beginning a task (pop head and set `is_busy`, enabled only when
not busy), and the consumer finishing the in-flight task (clear `is_busy`
and emit `task_complete`). -/
inductive WorkerStep : WorkerState → WorkerState → Prop where
  | enqueue (s : WorkerState) (t : WTask) :
      WorkerStep s { s with task_queue := s.task_queue ++ [t],
                            enqueued := s.enqueued ++ [t] }
  | begin_task (s : WorkerState) (t : WTask) (rest : List WTask) :
      s.is_busy = false → s.task_queue = t :: rest →
      WorkerStep s { s with task_queue := rest, is_busy := true,
                            current := some t, started := s.started ++ [t] }
  | finish_task (s : WorkerState) (t : WTask) :
      s.is_busy = true → s.current = some t →
      WorkerStep s { s with is_busy := false, current := none,
                            completed := s.completed ++ [t] }

/-- Worker states reachable from thread start. -/
inductive WorkerReach : WorkerState → Prop where
  | init : WorkerReach workerInit
  | step {s s' : WorkerState} : WorkerReach s → WorkerStep s s' → WorkerReach s'

/-!
Validation of the embeddings on concrete inputs (each checked against
the Python semantics by hand).
-/

example : isGarbageInput "um".data = true := by decide
example : isGarbageInput "  ThE ".data = true := by decide
example : isGarbageInput "UM".data = true := by decide
example : isGarbageInput "I think it is quadratic time overall".data = false := by decide
example : isGarbageInput "a b c d e".data = true := by decide
example : isGarbageInput "use a hash map here now".data = false := by decide
example : isAskingForHint "I'm STUCK".data = true := by decide
example : seemsFinished "I am done now".data = true := by decide
example : isAskingForHint "I think it is quadratic time overall".data = false := by decide
example : parseQuestionResponse none =
    ("Interview Question".data, "Please solve the problem.".data,
     "Let me give you a problem to work on.".data) := by decide
example : parseQuestionResponse (some []) =
    ("Interview Question".data, "Please solve the problem.".data,
     "Let me give you a problem to work on.".data) := by decide
example : parseQuestionResponse (some "just some advice".data) =
    ("Interview Question".data, "just some advice".data, "just some advice".data) := by
  decide
example : parseQuestionResponse (some " x ".data) =
    ("Interview Question".data, "x".data, "x".data) := by decide
example : cleanResponse "<think>reasoning here</think> final answer".data
    = "final answer".data := by decide
example : (generateResponse {} "p".data (.reply 200 "  hello  ".data)).2
    = "hello".data := by decide
example : (generateResponse {} "p".data (.reply 500 "boom".data)).2
    = "I apologize, I'm having some trouble. Let me try again.".data := by decide

/-!
Supporting lemmas about the string primitives.
-/

theorem isPySpace_toLower {c : Char} (h : isPySpace c = true) : c.toLower = c := by
  simp only [isPySpace, Bool.or_eq_true, decide_eq_true_eq] at h
  rcases h with ((((h | h) | h) | h) | h) | h <;> subst h <;> decide

theorem toLower_nonspace {c x : Char} (hx : isPySpace x = false)
    (h : c.toLower = x) : isPySpace c = false := by
  by_contra hc
  rw [Bool.not_eq_false] at hc
  rw [isPySpace_toLower hc] at h
  rw [h] at hc
  rw [hc] at hx
  exact Bool.true_eq_false.mp hx

theorem dropWhile_all_append {ws t : Str} (h : ∀ c ∈ ws, isPySpace c = true) :
    (ws ++ t).dropWhile isPySpace = t.dropWhile isPySpace := by
  induction ws with
  | nil => rfl
  | cons c rest ih =>
    simp only [List.cons_append, List.dropWhile_cons, h c (List.mem_cons_self c rest),
      if_true]
    exact ih (fun d hd => h d (List.mem_cons_of_mem c hd))

theorem stripPad (ws1 ws2 : Str) (c d : Char) (t r : Str)
    (h1 : ∀ x ∈ ws1, isPySpace x = true) (h2 : ∀ x ∈ ws2, isPySpace x = true)
    (hrev : (c :: t).reverse = d :: r)
    (hc : isPySpace c = false) (hd : isPySpace d = false) :
    pyStrip (ws1 ++ (c :: t) ++ ws2) = c :: t := by
  unfold pyStrip
  rw [List.append_assoc, dropWhile_all_append h1, List.cons_append,
    List.dropWhile_cons_of_neg (by simp [hc])]
  rw [show c :: (t ++ ws2) = (c :: t) ++ ws2 by simp, List.reverse_append, hrev,
    dropWhile_all_append (fun x hx => h2 x (List.mem_reverse.mp hx)),
    List.dropWhile_cons_of_neg (by simp [hd]), ← hrev, List.reverse_reverse]

theorem isGarbageInput_iff (text : Str) :
    isGarbageInput text = true ↔
      text.length < 3 ∨
      pyStrip (pyLower text) ∈ ["the".data, "a".data, "an".data, "uh".data, "um".data] ∨
      ((pySplit text).length > 3 ∧
        10 * ((pySplit text).countP (fun w => w.length ≤ 2)) > 6 * (pySplit text).length) := by
  unfold isGarbageInput
  split
  · simp_all
  · split
    · simp_all
    · dsimp only
      split
      · split <;> simp_all
      · simp_all

theorem pyLower_append (a b : Str) : pyLower (a ++ b) = pyLower a ++ pyLower b :=
  List.map_append Char.toLower a b

theorem pyLower_all_space {ws : Str} (h : ∀ x ∈ ws, isPySpace x = true) :
    ∀ x ∈ pyLower ws, isPySpace x = true := by
  intro x hx
  obtain ⟨y, hy, rfl⟩ := List.mem_map.mp hx
  rw [isPySpace_toLower (h y hy)]
  exact h y hy

/-- C4: the garbage classifier returns true for an utterance iff its length
is < 3, or lower-cased and trimmed it equals one of
{"the","a","an","uh","um"}, or it has more than 3 whitespace-separated words
of which strictly more than 60% have length ≤ 2; in particular it returns
true for every casing/whitespace variant of "um", "uh", "the", "a". -/
theorem c4_garbage_classifier :
    (∀ text : Str, isGarbageInput text = true ↔
      text.length < 3 ∨
      pyStrip (pyLower text) ∈ ["the".data, "a".data, "an".data, "uh".data, "um".data] ∨
      ((pySplit text).length > 3 ∧
        10 * ((pySplit text).countP (fun w => w.length ≤ 2)) > 6 * (pySplit text).length)) ∧
    (∀ ws1 w ws2 : Str, (∀ x ∈ ws1, isPySpace x = true) → (∀ x ∈ ws2, isPySpace x = true) →
      pyLower w ∈ ["um".data, "uh".data, "the".data, "a".data] →
      isGarbageInput (ws1 ++ w ++ ws2) = true) := by
  refine ⟨isGarbageInput_iff, ?_⟩
  intro ws1 w ws2 h1 h2 hw
  refine (isGarbageInput_iff _).mpr (Or.inr (Or.inl ?_))
  have hlow : pyStrip (pyLower (ws1 ++ w ++ ws2))
      = pyStrip (pyLower ws1 ++ pyLower w ++ pyLower ws2) := by
    rw [pyLower_append, pyLower_append]
  rw [hlow]
  have g1 := pyLower_all_space h1
  have g2 := pyLower_all_space h2
  simp only [List.mem_cons, List.not_mem_nil, or_false] at hw
  rcases hw with hw | hw | hw | hw <;> rw [hw] <;>
    rw [show (String.data _) = _ :: _ from rfl] <;>
    [rw [stripPad _ _ 'u' 'm' ['m'] ['u'] g1 g2 (by decide) (by decide) (by decide)];
     rw [stripPad _ _ 'u' 'h' ['h'] ['u'] g1 g2 (by decide) (by decide) (by decide)];
     rw [stripPad _ _ 't' 'e' ['h', 'e'] ['h', 't'] g1 g2 (by decide) (by decide) (by decide)];
     rw [stripPad _ _ 'a' 'a' [] [] g1 g2 (by decide) (by decide) (by decide)]] <;>
    decide

/-- Witness for C4 at a concrete casing/whitespace variant of "the". -/
theorem c4_garbage_classifier_witness :
    isGarbageInput ("  ".data ++ "ThE".data ++ " ".data) = true :=
  c4_garbage_classifier.2 "  ".data "ThE".data " ".data
    (by decide) (by decide) (by decide)

/-- C7: the generative-service wrapper is a total function of the HTTP
outcome; on timeout, connectivity failure, any other exception, or a
non-200 status it returns a literal fallback string (and leaves the
conversation history unchanged), so every failure degrades to a scripted
utterance. -/
theorem c7_generate_response_fallbacks :
    ∀ (eng : Engine) (prompt : Str),
      generateResponse eng prompt .timeout
        = (eng, "I need a moment to think about that...".data) ∧
      generateResponse eng prompt .connectionFailure
        = (eng, "I apologize for the technical issue. Please continue.".data) ∧
      generateResponse eng prompt .otherFailure
        = (eng, "I apologize for the technical issue. Please continue.".data) ∧
      ∀ status content, status = 200 ∨
        generateResponse eng prompt (.reply status content)
          = (eng, "I apologize, I'm having some trouble. Let me try again.".data) := by
  intro eng prompt
  refine ⟨rfl, rfl, rfl, ?_⟩
  intro status content
  by_cases h : status = 200
  · exact Or.inl h
  · exact Or.inr (by simp [generateResponse, h])

/-- C8: every reachable worker state satisfies: the enqueue log equals the
begun-task log followed by the pending queue (tasks begin in FIFO enqueue
order), the busy flag is set exactly while a task is in flight, and the
begun tasks are the completed ones plus at most the single in-flight task
(non-overlapping execution); a task can begin only when the busy flag is
false, by the `begin_task` rule. -/
theorem c8_worker_fifo_nonoverlap :
    ∀ s : WorkerState, WorkerReach s →
      s.enqueued = s.started ++ s.task_queue ∧
      s.is_busy = s.current.isSome ∧
      s.started = s.completed ++ s.current.toList := by
  intro s h
  induction h with
  | init => exact ⟨rfl, rfl, rfl⟩
  | step _ hstep ih =>
    obtain ⟨h1, h2, h3⟩ := ih
    cases hstep with
    | enqueue t =>
      refine ⟨?_, h2, h3⟩
      simp [h1]
    | begin_task t rest hb hq =>
      have hcur := Option.not_isSome_iff_eq_none.mp (by rw [← h2, hb]; simp)
      refine ⟨?_, by simp, ?_⟩
      · simp [h1, hq]
      · rw [h3, hcur]
        simp
    | finish_task t hb hc =>
      refine ⟨by simp [h1], by simp, ?_⟩
      rw [h3, hc]
      simp

/-- Witness for C8: a concrete three-step run (enqueue, enqueue, begin
first task) reaches a state satisfying the invariant. -/
theorem c8_worker_fifo_nonoverlap_witness :
    ({ task_queue := [⟨"hint".data, [], []⟩], is_busy := true,
       current := some ⟨"process".data, "hello".data, []⟩,
       enqueued := [⟨"process".data, "hello".data, []⟩, ⟨"hint".data, [], []⟩],
       started := [⟨"process".data, "hello".data, []⟩],
       completed := [] } : WorkerState).enqueued
      = [⟨"process".data, "hello".data, []⟩] ++ [⟨"hint".data, [], []⟩] ∧
    (true : Bool) = true ∧
    ([⟨"process".data, "hello".data, []⟩] : List WTask)
      = [] ++ [⟨"process".data, "hello".data, []⟩] := by
  have r1 : WorkerReach { workerInit with
      task_queue := workerInit.task_queue ++ [⟨"process".data, "hello".data, []⟩],
      enqueued := workerInit.enqueued ++ [⟨"process".data, "hello".data, []⟩] } :=
    WorkerReach.step WorkerReach.init
      (WorkerStep.enqueue workerInit ⟨"process".data, "hello".data, []⟩)
  have r2 := WorkerReach.step r1 (WorkerStep.enqueue _ ⟨"hint".data, [], []⟩)
  have r3 := WorkerReach.step r2
    (WorkerStep.begin_task _ ⟨"process".data, "hello".data, []⟩ [⟨"hint".data, [], []⟩]
      rfl rfl)
  exact c8_worker_fifo_nonoverlap _ r3

/-- C1 (amended): in the CandidateSolving handler, follow_up_attempts is
incremented exactly on the default path, reset to 0 exactly when the hint
or completion classifier matches the utterance, and forced progression
(next question or session end) fires exactly when the counter would reach
max_retries (default 5), at which point it is reset to 0; the explicit
request_hint entry point, however, gives a hint without resetting the
counter. -/
theorem c1_follow_up_attempts (gen : Gen) (m : Machine) (u : Str) :
    ((handleSolvingResponse gen m u).1.ctx.follow_up_attempts =
      (if isGarbageInput u then m.ctx.follow_up_attempts
       else if isAskingForHint u then 0
       else if seemsFinished u then 0
       else if m.ctx.follow_up_attempts + 1 ≥ m.ctx.max_retries then 0
       else m.ctx.follow_up_attempts + 1)) ∧
    (isGarbageInput u = false → isAskingForHint u = false → seemsFinished u = false →
      m.ctx.follow_up_attempts + 1 ≥ m.ctx.max_retries →
      (m.ctx.questions_asked.length < 2 →
        (handleSolvingResponse gen m u).1.ctx.questions_asked.length
          = m.ctx.questions_asked.length + 1) ∧
      (¬ m.ctx.questions_asked.length < 2 →
        (handleSolvingResponse gen m u).1.state = .ENDED)) ∧
    (isGarbageInput u = false → isAskingForHint u = false → seemsFinished u = false →
      m.ctx.follow_up_attempts + 1 < m.ctx.max_retries →
      (handleSolvingResponse gen m u).1.ctx.questions_asked = m.ctx.questions_asked ∧
      (handleSolvingResponse gen m u).1.state = m.state ∧
      (handleSolvingResponse gen m u).1.genLog = m.genLog
        ++ [.feedback m.ctx.current_question m.ctx.current_code u m.ctx.hints_given]) ∧
    (requestHint gen m).1.ctx.follow_up_attempts = m.ctx.follow_up_attempts ∧
    freshContext.max_retries = 5 := by
  refine ⟨?_, ?_, ?_, ?_, rfl⟩
  · by_cases hg : isGarbageInput u
    · simp [handleSolvingResponse, hg]
    · by_cases hh : isAskingForHint u
      · simp [handleSolvingResponse, giveHint, callGen, addToTranscript, setState, hg, hh]
      · by_cases hd : seemsFinished u
        · simp [handleSolvingResponse, askFollowUp, callGen, addToTranscript, setState,
            hg, hh, hd]
        · by_cases hforce : m.ctx.follow_up_attempts + 1 ≥ m.ctx.max_retries
          · by_cases hq : m.ctx.questions_asked.length < 2 <;>
              simp [handleSolvingResponse, moveOnOrConclude, presentQuestion, endInterview,
                callGen, addToTranscript, setState, hg, hh, hd, hforce, hq]
          · simp [handleSolvingResponse, callGen, addToTranscript, hg, hh, hd, hforce]
            split <;> split <;> simp
  · intro hg hh hd hforce
    constructor
    · intro hq
      simp [handleSolvingResponse, moveOnOrConclude, presentQuestion,
        callGen, addToTranscript, setState, hg, hh, hd, hforce, hq]
    · intro hq
      simp [handleSolvingResponse, moveOnOrConclude, endInterview,
        callGen, addToTranscript, setState, hg, hh, hd, hforce, hq]
  · intro hg hh hd hforce
    have hforce' : ¬ (m.ctx.follow_up_attempts + 1 ≥ m.ctx.max_retries) := by omega
    refine ⟨?_, ?_, ?_⟩ <;>
      simp [handleSolvingResponse, callGen, addToTranscript, hg, hh, hd, hforce'] <;>
      split <;> split <;> simp
  · unfold requestHint
    split
    · simp [giveHint, callGen, addToTranscript, setState]
    · rfl

/-- C2 (amended): on the default CandidateSolving path, a feedback response
whose upper-casing contains [WRONG] appends exactly one mistake record whose
correction is the response with the exact-case tags [WRONG] and [wrong]
removed and whitespace-stripped, and the returned text is the response with
the six exact-case tags successively removed and stripped; in particular
"[WRONG] Actually it's O(n log n)." yields correction
"Actually it's O(n log n)." and a display with no bracket at all.
Mixed-case tags are not stripped (see the counterexample). -/
theorem c2_wrong_tag_feedback (gen : Gen) (m : Machine) (u resp : Str) :
    (isGarbageInput u = false → isAskingForHint u = false → seemsFinished u = false →
      m.ctx.follow_up_attempts + 1 < m.ctx.max_retries →
      gen (.feedback m.ctx.current_question m.ctx.current_code u m.ctx.hints_given) = resp →
      resp ≠ [] →
      (containsSub "[WRONG]".data (pyUpper resp) = true →
        (handleSolvingResponse gen m u).1.ctx.mistakes = m.ctx.mistakes ++
          [⟨m.ctx.current_question.take 100, u,
            pyStrip (pyReplace "[wrong]".data [] (pyReplace "[WRONG]".data [] resp))⟩]) ∧
      (containsSub "[WRONG]".data (pyUpper resp) = false →
        (handleSolvingResponse gen m u).1.ctx.mistakes = m.ctx.mistakes) ∧
      (handleSolvingResponse gen m u).2 = cleanupTags resp) ∧
    (handleSolvingResponse (fun _ => "[WRONG] Actually it's O(n log n).".data)
        { state := .CANDIDATE_SOLVING, ctx := freshContext, clock := 0 }
        "I think it is quadratic time overall".data).1.ctx.mistakes
      = [⟨[], "I think it is quadratic time overall".data,
          "Actually it's O(n log n).".data⟩] ∧
    (handleSolvingResponse (fun _ => "[WRONG] Actually it's O(n log n).".data)
        { state := .CANDIDATE_SOLVING, ctx := freshContext, clock := 0 }
        "I think it is quadratic time overall".data).2
      = "Actually it's O(n log n).".data ∧
    containsSub "[".data (handleSolvingResponse
        (fun _ => "[WRONG] Actually it's O(n log n).".data)
        { state := .CANDIDATE_SOLVING, ctx := freshContext, clock := 0 }
        "I think it is quadratic time overall".data).2 = false := by
  refine ⟨?_, by decide, by decide, by decide⟩
  intro hg hh hd hforce hresp hne
  have hforce' : ¬ (m.ctx.follow_up_attempts + 1 ≥ m.ctx.max_retries) := by omega
  refine ⟨?_, ?_, ?_⟩
  · intro hw
    simp [handleSolvingResponse, callGen, addToTranscript, hg, hh, hd, hforce',
      hresp, hne, hw]
  · intro hw
    simp [handleSolvingResponse, callGen, addToTranscript, hg, hh, hd, hforce',
      hresp, hne, hw]
  · simp [handleSolvingResponse, callGen, addToTranscript, hg, hh, hd, hforce',
      hresp, hne]

theorem c2_wrong_tag_feedback_counterexample :
    containsSub "[Wrong]".data (handleSolvingResponse
        (fun _ => "[Wrong] Actually it's O(n log n).".data)
        { state := .CANDIDATE_SOLVING, ctx := freshContext, clock := 0 }
        "I think it is quadratic time overall".data).2 = true ∧
    (handleSolvingResponse (fun _ => "[Wrong] Actually it's O(n log n).".data)
        { state := .CANDIDATE_SOLVING, ctx := freshContext, clock := 0 }
        "I think it is quadratic time overall".data).1.ctx.mistakes.map Mistake.correction
      = ["[Wrong] Actually it's O(n log n).".data] ∧
    "[Wrong] Actually it's O(n log n).".data ≠ "Actually it's O(n log n).".data := by
  refine ⟨by decide, by decide, by decide⟩

theorem c2_wrong_tag_feedback_witness :
    (handleSolvingResponse (fun _ => "[WRONG] no, that is off by one.".data)
        { state := .CANDIDATE_SOLVING, ctx := freshContext, clock := 0 }
        "I think it is quadratic time overall".data).1.ctx.mistakes
      = freshContext.mistakes ++
        [⟨freshContext.current_question.take 100,
          "I think it is quadratic time overall".data,
          pyStrip (pyReplace "[wrong]".data [] (pyReplace "[WRONG]".data []
            "[WRONG] no, that is off by one.".data))⟩] :=
  ((c2_wrong_tag_feedback (fun _ => "[WRONG] no, that is off by one.".data)
      { state := .CANDIDATE_SOLVING, ctx := freshContext, clock := 0 }
      "I think it is quadratic time overall".data
      "[WRONG] no, that is off by one.".data).1
    (by decide) (by decide) (by decide) (by decide) rfl (by decide)).1 (by decide)

/-- C3 (amended): for a garbage-classified utterance in CandidateSolving,
process_user_input returns the fixed reprompt, issues no generative call,
leaves phase, state log and attempt counter unchanged, and the only
SessionContext changes are the unconditional transcript append of the
utterance and the current_code overwrite performed before classification. -/
theorem c3_garbage_no_effect (gen : Gen) (m : Machine) (u c : Str) :
    m.state = .CANDIDATE_SOLVING → isGarbageInput u = true →
    (processUserInput gen m u c).2 = "I didn't catch that. Could you repeat?".data ∧
    (processUserInput gen m u c).1.genLog = m.genLog ∧
    (processUserInput gen m u c).1.state = m.state ∧
    (processUserInput gen m u c).1.stateLog = m.stateLog ∧
    (processUserInput gen m u c).1.ctx = { m.ctx with
      transcript := m.ctx.transcript ++ [⟨"User".data, u, m.clock⟩],
      current_code := c } := by
  intro hs hg
  refine ⟨?_, ?_, ?_, ?_, ?_⟩ <;>
    simp [processUserInput, addToTranscript, handleSolvingResponse, hs, hg]

theorem c3_garbage_no_effect_counterexample :
    (processUserInput (fun _ => [])
        { state := .CANDIDATE_SOLVING, ctx := freshContext, clock := 0 }
        "um".data []).1.ctx
      ≠ ({ state := .CANDIDATE_SOLVING, ctx := freshContext, clock := 0 } : Machine).ctx := by
  decide

theorem c3_garbage_no_effect_witness :
    (processUserInput (fun _ => [])
        { state := .CANDIDATE_SOLVING, ctx := freshContext, clock := 0 }
        "um".data "x = 1".data).2
      = "I didn't catch that. Could you repeat?".data :=
  (c3_garbage_no_effect (fun _ => [])
      { state := .CANDIDATE_SOLVING, ctx := freshContext, clock := 0 }
      "um".data "x = 1".data rfl (by decide)).1

theorem searchLabel_none_of_not_contains (label : Str) (look : Str → Bool) (r : Str)
    (h : ciContainsSub label r = false) : searchLabel label look r = none := by
  induction r with
  | nil => rfl
  | cons c rest ih =>
    simp only [ciContainsSub, Bool.or_eq_false_iff] at h
    simp [searchLabel, h.1, ih h.2]

theorem searchExpLabel_none_of_not_contains (r : Str)
    (hv : ciContainsSub "VERBAL:".data r = false)
    (he : ciContainsSub "EXPLANATION:".data r = false) :
    searchExpLabel r = none := by
  induction r with
  | nil => rfl
  | cons c rest ih =>
    simp only [ciContainsSub, Bool.or_eq_false_iff] at hv he
    simp [searchExpLabel, hv.1, he.1, ih hv.2 he.2]

theorem pyReplaceFuel_eq_self (olds news : Str) :
    ∀ (fuel : Nat) (s : Str), containsSub olds s = false →
      pyReplaceFuel olds news fuel s = s := by
  intro fuel
  induction fuel with
  | zero => intro s _; rfl
  | succ n ih =>
    intro s hs
    cases s with
    | nil => rfl
    | cons c rest =>
      simp only [containsSub, Bool.or_eq_false_iff] at hs
      unfold pyReplaceFuel
      rw [if_neg (by simp [hs.1])]
      rw [ih rest hs.2]

theorem pyReplace_eq_self (olds news s : Str) (h : containsSub olds s = false) :
    pyReplace olds news s = s :=
  pyReplaceFuel_eq_self olds news s.length s h

/-- C5 (amended): on empty or null input the parser returns the default
title and the two literal placeholders; on non-empty input in which no
section label occurs (case-insensitively), it returns the default title
with question_text = explanation = the raw input with `---` occurrences
removed and surrounding whitespace stripped — equal to the raw input
exactly when the input has no `---` and strips to itself. -/
theorem c5_parser_fallbacks :
    parseQuestionResponse none
      = ("Interview Question".data, "Please solve the problem.".data,
         "Let me give you a problem to work on.".data) ∧
    parseQuestionResponse (some [])
      = ("Interview Question".data, "Please solve the problem.".data,
         "Let me give you a problem to work on.".data) ∧
    (∀ r : Str, r ≠ [] →
      ciContainsSub "QUESTION_TITLE:".data r = false →
      ciContainsSub "QUESTION_TEXT:".data r = false →
      ciContainsSub "VERBAL:".data r = false →
      ciContainsSub "EXPLANATION:".data r = false →
      parseQuestionResponse (some r)
        = ("Interview Question".data, pyStrip (pyReplace "---".data [] r),
           pyStrip (pyReplace "---".data [] r)) ∧
      (containsSub "---".data r = false → pyStrip r = r →
        parseQuestionResponse (some r) = ("Interview Question".data, r, r))) := by
  refine ⟨rfl, by decide, ?_⟩
  intro r hne ht htx hv he
  have h1 : searchLabel "QUESTION_TITLE:".data lookTitle r = none :=
    searchLabel_none_of_not_contains _ _ _ ht
  have h2 : searchLabel "QUESTION_TEXT:".data lookText r = none :=
    searchLabel_none_of_not_contains _ _ _ htx
  have h3 : searchExpLabel r = none := searchExpLabel_none_of_not_contains r hv he
  have hmain : parseQuestionResponse (some r)
      = ("Interview Question".data, pyStrip (pyReplace "---".data [] r),
         pyStrip (pyReplace "---".data [] r)) := by
    unfold parseQuestionResponse
    dsimp only
    rw [if_neg hne, h1, h2, h3]
    have htitle : pyStrip (pyReplace "---".data [] "Interview Question".data)
        = "Interview Question".data := by decide
    simp [htitle]
  refine ⟨hmain, ?_⟩
  intro hdash hstrip
  rw [hmain, pyReplace_eq_self _ _ _ hdash, hstrip]

theorem c5_parser_fallbacks_counterexample :
    (parseQuestionResponse (some " x ".data)).2.1 ≠ " x ".data ∧
    (parseQuestionResponse (some "no labels --- here".data)).2.1
      ≠ "no labels --- here".data := by
  refine ⟨by decide, by decide⟩

theorem c5_parser_fallbacks_witness :
    parseQuestionResponse (some "just a plain reply".data)
      = ("Interview Question".data, "just a plain reply".data,
         "just a plain reply".data) :=
  ((c5_parser_fallbacks.2.2 "just a plain reply".data (by decide) (by decide)
    (by decide) (by decide) (by decide)).2 (by decide) (by decide))

/-!
Frame lemmas: every handler leaves `current_code` untouched, only appends
to the transcript, and never decreases the clock.
-/

theorem frame_presentQuestion (gen : Gen) (m : Machine) :
    (presentQuestion gen m).1.ctx.current_code = m.ctx.current_code ∧
    (∃ rest, (presentQuestion gen m).1.ctx.transcript = m.ctx.transcript ++ rest) ∧
    m.clock ≤ (presentQuestion gen m).1.clock := by
  refine ⟨?_, ?_, ?_⟩ <;>
    simp [presentQuestion, callGen, addToTranscript, setState] <;> omega

theorem frame_giveHint (gen : Gen) (m : Machine) :
    (giveHint gen m).1.ctx.current_code = m.ctx.current_code ∧
    (∃ rest, (giveHint gen m).1.ctx.transcript = m.ctx.transcript ++ rest) ∧
    m.clock ≤ (giveHint gen m).1.clock := by
  refine ⟨?_, ?_, ?_⟩ <;>
    simp [giveHint, callGen, addToTranscript, setState] <;> omega

theorem frame_askFollowUp (gen : Gen) (m : Machine) :
    (askFollowUp gen m).1.ctx.current_code = m.ctx.current_code ∧
    (∃ rest, (askFollowUp gen m).1.ctx.transcript = m.ctx.transcript ++ rest) ∧
    m.clock ≤ (askFollowUp gen m).1.clock := by
  refine ⟨?_, ?_, ?_⟩ <;>
    simp [askFollowUp, callGen, addToTranscript, setState] <;> omega

theorem frame_endInterview (gen : Gen) (m : Machine) :
    (endInterview gen m).1.ctx.current_code = m.ctx.current_code ∧
    (∃ rest, (endInterview gen m).1.ctx.transcript = m.ctx.transcript ++ rest) ∧
    m.clock ≤ (endInterview gen m).1.clock := by
  refine ⟨?_, ?_, ?_⟩ <;>
    simp [endInterview, callGen, addToTranscript, setState] <;> omega

theorem frame_generateContextualResponse (gen : Gen) (m : Machine) (u : Str) :
    (generateContextualResponse gen m u).1.ctx.current_code = m.ctx.current_code ∧
    (∃ rest, (generateContextualResponse gen m u).1.ctx.transcript
       = m.ctx.transcript ++ rest) ∧
    m.clock ≤ (generateContextualResponse gen m u).1.clock := by
  refine ⟨?_, ?_, ?_⟩ <;>
    simp [generateContextualResponse, callGen, addToTranscript] <;> omega

theorem frame_moveOnOrConclude (gen : Gen) (m : Machine) :
    (moveOnOrConclude gen m).1.ctx.current_code = m.ctx.current_code ∧
    (∃ rest, (moveOnOrConclude gen m).1.ctx.transcript = m.ctx.transcript ++ rest) ∧
    m.clock ≤ (moveOnOrConclude gen m).1.clock := by
  refine ⟨?_, ?_, ?_⟩ <;>
    simp only [moveOnOrConclude, presentQuestion, endInterview, callGen,
      addToTranscript, setState] <;>
    split <;> simp <;> omega

theorem frame_handleSolvingResponse (gen : Gen) (m : Machine) (u : Str) :
    (handleSolvingResponse gen m u).1.ctx.current_code = m.ctx.current_code ∧
    (∃ rest, (handleSolvingResponse gen m u).1.ctx.transcript
       = m.ctx.transcript ++ rest) ∧
    m.clock ≤ (handleSolvingResponse gen m u).1.clock := by
  unfold handleSolvingResponse
  split
  · exact ⟨rfl, ⟨[], by simp⟩, le_refl _⟩
  · split
    · exact frame_giveHint gen _
    · split
      · exact frame_askFollowUp gen _
      · dsimp only
        split
        · exact frame_moveOnOrConclude gen _
        · refine ⟨?_, ?_, ?_⟩
          · simp only [callGen, addToTranscript]
            split <;> split <;> simp
          · simp only [callGen, addToTranscript]
            split <;> split <;> simp
          · simp only [callGen, addToTranscript]
            split <;> split <;> (dsimp only; omega)

theorem frame_handlePostHint (gen : Gen) (m : Machine) (u : Str) :
    (handlePostHint gen m u).1.ctx.current_code = m.ctx.current_code ∧
    (∃ rest, (handlePostHint gen m u).1.ctx.transcript = m.ctx.transcript ++ rest) ∧
    m.clock ≤ (handlePostHint gen m u).1.clock :=
  frame_handleSolvingResponse gen (setState m .CANDIDATE_SOLVING) u

theorem frame_handleGreetingResponse (gen : Gen) (m : Machine) (u : Str) :
    (handleGreetingResponse gen m u).1.ctx.current_code = m.ctx.current_code ∧
    (∃ rest, (handleGreetingResponse gen m u).1.ctx.transcript
       = m.ctx.transcript ++ rest) ∧
    m.clock ≤ (handleGreetingResponse gen m u).1.clock :=
  frame_presentQuestion gen _

theorem frame_handleTopicSelection (gen : Gen) (m : Machine) :
    (handleTopicSelection gen m).1.ctx.current_code = m.ctx.current_code ∧
    (∃ rest, (handleTopicSelection gen m).1.ctx.transcript
       = m.ctx.transcript ++ rest) ∧
    m.clock ≤ (handleTopicSelection gen m).1.clock :=
  frame_presentQuestion gen m

theorem frame_handleFollowUpResponse (gen : Gen) (m : Machine) (u : Str) :
    (handleFollowUpResponse gen m u).1.ctx.current_code = m.ctx.current_code ∧
    (∃ rest, (handleFollowUpResponse gen m u).1.ctx.transcript
       = m.ctx.transcript ++ rest) ∧
    m.clock ≤ (handleFollowUpResponse gen m u).1.clock := by
  refine ⟨?_, ?_, ?_⟩ <;>
    simp only [handleFollowUpResponse, endInterview, callGen,
      addToTranscript, setState] <;>
    split <;> simp <;> omega

/-- C6: on forced progression the engine presents the next question iff
fewer than 2 questions have been asked, otherwise it transitions Closing
then Ended via end_interview; in the FollowUp handler the length of
questions_asked is the sole gate of the closing transition. -/
theorem c6_question_cap (gen : Gen) (m : Machine) :
    (m.ctx.questions_asked.length < 2 →
      (moveOnOrConclude gen m).1.state = .CANDIDATE_SOLVING ∧
      (moveOnOrConclude gen m).1.ctx.questions_asked.length
        = m.ctx.questions_asked.length + 1 ∧
      (moveOnOrConclude gen m).1.ctx.end_time = m.ctx.end_time) ∧
    (¬ m.ctx.questions_asked.length < 2 →
      (moveOnOrConclude gen m).1.state = .ENDED ∧
      (moveOnOrConclude gen m).1.stateLog = m.stateLog ++ [.CLOSING, .ENDED] ∧
      (moveOnOrConclude gen m).1.ctx.questions_asked = m.ctx.questions_asked) ∧
    (∀ u : Str, 2 ≤ m.ctx.questions_asked.length →
      (handleFollowUpResponse gen m u).1.state = .ENDED ∧
      (handleFollowUpResponse gen m u).1.stateLog = m.stateLog ++ [.CLOSING, .ENDED]) ∧
    (∀ u : Str, m.ctx.questions_asked.length < 2 →
      (handleFollowUpResponse gen m u).1.state = m.state ∧
      (handleFollowUpResponse gen m u).1.stateLog = m.stateLog ∧
      (handleFollowUpResponse gen m u).1.ctx.questions_asked = m.ctx.questions_asked ∧
      (handleFollowUpResponse gen m u).1.ctx.end_time = m.ctx.end_time) := by
  refine ⟨?_, ?_, ?_, ?_⟩
  · intro h
    refine ⟨?_, ?_, ?_⟩ <;>
      simp [moveOnOrConclude, presentQuestion, callGen, addToTranscript, setState, h]
  · intro h
    refine ⟨?_, ?_, ?_⟩ <;>
      simp [moveOnOrConclude, endInterview, callGen, addToTranscript, setState, h]
  · intro u h
    refine ⟨?_, ?_⟩ <;>
      simp [handleFollowUpResponse, endInterview, callGen, addToTranscript, setState, h]
  · intro u h
    have h' : ¬ 2 ≤ m.ctx.questions_asked.length := by omega
    refine ⟨?_, ?_, ?_, ?_⟩ <;>
      simp [handleFollowUpResponse, endInterview, callGen, addToTranscript, setState, h']

/-- Witness for C6 at concrete machines on both sides of the gate. -/
theorem c6_question_cap_witness :
    (moveOnOrConclude (fun _ => [])
        { state := .CANDIDATE_SOLVING, ctx := freshContext, clock := 0 }).1.state
      = .CANDIDATE_SOLVING ∧
    (moveOnOrConclude (fun _ => [])
        { state := .CANDIDATE_SOLVING,
          ctx := { freshContext with questions_asked := ["q1".data, "q2".data] },
          clock := 0 }).1.state = .ENDED :=
  ⟨((c6_question_cap (fun _ => [])
      { state := .CANDIDATE_SOLVING, ctx := freshContext, clock := 0 }).1
      (by decide)).1,
   ((c6_question_cap (fun _ => [])
      { state := .CANDIDATE_SOLVING,
        ctx := { freshContext with questions_asked := ["q1".data, "q2".data] },
        clock := 0 }).2.1 (by decide)).1⟩

/-- Composition step: lift a handler's frame facts over the transcript
append and code overwrite that `process_user_input` performs first. -/
theorem frame_compose {M2 : Machine} {res : Machine × Str} (m : Machine)
    (e : TranscriptEntry) (c : Str)
    (hM2code : M2.ctx.current_code = c)
    (hM2tr : M2.ctx.transcript = m.ctx.transcript ++ [e])
    (hM2clock : M2.clock = m.clock + 1)
    (h : res.1.ctx.current_code = M2.ctx.current_code ∧
         (∃ rest, res.1.ctx.transcript = M2.ctx.transcript ++ rest) ∧
         M2.clock ≤ res.1.clock) :
    res.1.ctx.current_code = c ∧
    (∃ rest, res.1.ctx.transcript = m.ctx.transcript ++ e :: rest) ∧
    m.clock ≤ res.1.clock := by
  obtain ⟨h1, ⟨r, hr⟩, h3⟩ := h
  refine ⟨h1.trans hM2code, ⟨r, by simp [hr, hM2tr]⟩, by omega⟩

/-- Frame facts of `process_user_input`: the code snapshot is stored, the
user entry is appended at the old transcript's end, the clock never
decreases. -/
theorem processUserInput_frame (gen : Gen) (m : Machine) (u c : Str) :
    (processUserInput gen m u c).1.ctx.current_code = c ∧
    (∃ rest, (processUserInput gen m u c).1.ctx.transcript
       = m.ctx.transcript ++ ⟨"User".data, u, m.clock⟩ :: rest) ∧
    m.clock ≤ (processUserInput gen m u c).1.clock := by
  unfold processUserInput
  dsimp only [addToTranscript]
  cases m.state <;>
    first
      | exact frame_compose m _ c rfl rfl rfl (frame_handleGreetingResponse gen _ u)
      | exact frame_compose m _ c rfl rfl rfl (frame_handleTopicSelection gen _)
      | exact frame_compose m _ c rfl rfl rfl (frame_handleSolvingResponse gen _ u)
      | exact frame_compose m _ c rfl rfl rfl (frame_handleFollowUpResponse gen _ u)
      | exact frame_compose m _ c rfl rfl rfl (frame_handlePostHint gen _ u)
      | exact frame_compose m _ c rfl rfl rfl (frame_generateContextualResponse gen _ u)

/-- C9: end_interview stamps end_time with the current clock; once it has
run (on a session whose start_time was stamped by a clock reading not
after the current one), the summary duration equals end_time − start_time
and is non-negative; the summary reports the in-progress placeholder
exactly when end_time is unset; start_interview stamps start_time from the
clock, and no operation ever decreases the clock. -/
theorem c9_session_duration (gen : Gen) (m : Machine) :
    (∀ t0 : Nat, m.ctx.start_time = some t0 → t0 ≤ m.clock →
      (endInterview gen m).1.ctx.end_time = some m.clock ∧
      sessionDuration (endInterview gen m).1.ctx
        = .dur ((m.clock : Int) - (t0 : Int)) ∧
      0 ≤ (m.clock : Int) - (t0 : Int)) ∧
    (∀ c : Ctx, sessionDuration c = .inProgress ↔ c.end_time = none) ∧
    ((startInterview gen m).1.ctx.start_time = some m.clock ∧
      m.clock ≤ (startInterview gen m).1.clock) ∧
    (∀ u c : Str, m.clock ≤ (processUserInput gen m u c).1.clock) := by
  refine ⟨?_, ?_, ⟨?_, ?_⟩, ?_⟩
  · intro t0 h1 h2
    refine ⟨?_, ?_, by omega⟩
    · simp [endInterview, callGen, addToTranscript, setState]
    · simp [sessionDuration, endInterview, callGen, addToTranscript, setState, h1]
  · intro c
    unfold sessionDuration
    cases c.end_time <;> cases c.start_time <;> simp
  · simp [startInterview, callGen, addToTranscript, setState]
  · simp [startInterview, callGen, addToTranscript, setState]
    omega
  · intro u c
    exact (processUserInput_frame gen m u c).2.2

/-- Witness for C9 at a concrete started session. -/
theorem c9_session_duration_witness :
    (endInterview (fun _ => [])
        { state := .CANDIDATE_SOLVING,
          ctx := { freshContext with start_time := some 2 },
          clock := 7 }).1.ctx.end_time = some 7 ∧
    sessionDuration (endInterview (fun _ => [])
        { state := .CANDIDATE_SOLVING,
          ctx := { freshContext with start_time := some 2 },
          clock := 7 }).1.ctx = .dur ((7 : Int) - (2 : Int)) ∧
    0 ≤ ((7 : Int) - (2 : Int)) :=
  (c9_session_duration (fun _ => [])
      { state := .CANDIDATE_SOLVING,
        ctx := { freshContext with start_time := some 2 },
        clock := 7 }).1 2 rfl (by decide)

/-- C10: every call to process_user_input appends the utterance to the
transcript (as the entry right after the old transcript) and overwrites
current_code with the supplied snapshot, unconditionally — including for
garbage-classified utterances, where they are the only context changes. -/
theorem c10_transcript_code_unconditional (gen : Gen) (m : Machine) (u c : Str) :
    (processUserInput gen m u c).1.ctx.current_code = c ∧
    (∃ rest, (processUserInput gen m u c).1.ctx.transcript
       = m.ctx.transcript ++ ⟨"User".data, u, m.clock⟩ :: rest) ∧
    (m.state = .CANDIDATE_SOLVING → isGarbageInput u = true →
      (processUserInput gen m u c).1.ctx.transcript
        = m.ctx.transcript ++ [⟨"User".data, u, m.clock⟩]) := by
  obtain ⟨h1, h2, _⟩ := processUserInput_frame gen m u c
  refine ⟨h1, h2, ?_⟩
  intro hs hg
  simp [processUserInput, addToTranscript, handleSolvingResponse, hs, hg]

/-- Witness for C10 on a garbage utterance. -/
theorem c10_transcript_code_unconditional_witness :
    (processUserInput (fun _ => [])
        { state := .CANDIDATE_SOLVING, ctx := freshContext, clock := 0 }
        "um".data "code v1".data).1.ctx.transcript
      = freshContext.transcript ++ [⟨"User".data, "um".data, 0⟩] :=
  (c10_transcript_code_unconditional (fun _ => [])
      { state := .CANDIDATE_SOLVING, ctx := freshContext, clock := 0 }
      "um".data "code v1".data).2.2 rfl (by decide)

/-- Counterexample to C1 as stated: the explicit request_hint entry point
gives a hint without resetting follow_up_attempts (here it stays 3). -/
theorem c1_follow_up_attempts_counterexample :
    (requestHint (fun _ => [])
        { state := .CANDIDATE_SOLVING,
          ctx := { freshContext with follow_up_attempts := 3 },
          clock := 0 }).1.ctx.follow_up_attempts = 3 ∧
    (requestHint (fun _ => [])
        { state := .CANDIDATE_SOLVING,
          ctx := { freshContext with follow_up_attempts := 3 },
          clock := 0 }).1.ctx.hints_given = 1 ∧
    (3 : Nat) ≠ 0 := by
  refine ⟨by decide, by decide, by decide⟩

/-- Witness for C1: with the counter at 4 out of max_retries 5, a default
utterance forces progression (a new question is presented). -/
theorem c1_follow_up_attempts_witness :
    (handleSolvingResponse (fun _ => [])
        { state := .CANDIDATE_SOLVING,
          ctx := { freshContext with follow_up_attempts := 4 },
          clock := 0 }
        "I think it is quadratic time overall".data).1.ctx.questions_asked.length
      = ({ state := .CANDIDATE_SOLVING,
           ctx := { freshContext with follow_up_attempts := 4 },
           clock := 0 } : Machine).ctx.questions_asked.length + 1 :=
  ((c1_follow_up_attempts (fun _ => [])
      { state := .CANDIDATE_SOLVING,
        ctx := { freshContext with follow_up_attempts := 4 },
        clock := 0 }
      "I think it is quadratic time overall".data).2.1
    (by decide) (by decide) (by decide) (by decide)).1 (by decide)
